import Mathlib

/-!
Verification of the pool-aggregation and yield-computation pipeline of
`main.ts` (stargate-tools).  Machine floating-point numbers are modelled as
exact rationals extended with the IEEE special values `Infinity`, `-Infinity`
and `NaN` (type `JsNum`), so that JavaScript's total division (`x / 0 =
Infinity`) is captured faithfully.  BigInt arithmetic on non-negative
quantities is modelled with `Nat` (BigInt division truncates, which on
non-negative operands is `Nat` floor division).
-/

/-- JavaScript `number` values as produced by the arithmetic in `main.ts`:
an exact rational, one of the two infinities, or `NaN`. -/
inductive JsNum where
  | fin : ℚ → JsNum
  | posInf : JsNum
  | negInf : JsNum
  | nan : JsNum
deriving DecidableEq

/-- JavaScript multiplication on `JsNum` (`0 * Infinity = NaN`). -/
def jsMul : JsNum → JsNum → JsNum
  | .fin a, .fin b => .fin (a * b)
  | .fin a, .posInf => if 0 < a then .posInf else if a < 0 then .negInf else .nan
  | .fin a, .negInf => if 0 < a then .negInf else if a < 0 then .posInf else .nan
  | .posInf, .fin b => if 0 < b then .posInf else if b < 0 then .negInf else .nan
  | .negInf, .fin b => if 0 < b then .negInf else if b < 0 then .posInf else .nan
  | .posInf, .posInf => .posInf
  | .posInf, .negInf => .negInf
  | .negInf, .posInf => .negInf
  | .negInf, .negInf => .posInf
  | .nan, _ => .nan
  | _, .nan => .nan

/-- JavaScript division on `JsNum`: a positive finite number divided by zero
is `Infinity`, `0 / 0` is `NaN`, a finite number divided by an infinity is
`0` (the sign of zero is not modelled). -/
def jsDiv : JsNum → JsNum → JsNum
  | .fin a, .fin b =>
      if b = 0 then (if 0 < a then .posInf else if a < 0 then .negInf else .nan)
      else .fin (a / b)
  | .fin _, .posInf => .fin 0
  | .fin _, .negInf => .fin 0
  | .posInf, .fin b => if 0 ≤ b then .posInf else .negInf
  | .negInf, .fin b => if 0 ≤ b then .negInf else .posInf
  | .posInf, .posInf => .nan
  | .posInf, .negInf => .nan
  | .negInf, .posInf => .nan
  | .negInf, .negInf => .nan
  | .nan, _ => .nan
  | _, .nan => .nan

/-- `const STG_DECIMALS = 18n` (main.ts line 41). -/
def STG_DECIMALS : Nat := 18

/-- `(latestBlock.timestamp - block.timestamp) / 100n` (main.ts line 139),
BigInt truncating division on non-negative values. -/
def avgBlockTime (latestTs olderTs : Nat) : Nat := (latestTs - olderTs) / 100

/-- `const blocksPerHour = 3600n / avgBlockTime` (main.ts line 143). -/
def blocksPerHour (abt : Nat) : Nat := 3600 / abt

/-- `const blocksPerDay = blocksPerHour * 24n` (main.ts line 144). -/
def blocksPerDay (abt : Nat) : Nat := blocksPerHour abt * 24

/-- `const blocksPerWeek = blocksPerDay * 7n` (main.ts line 145). -/
def blocksPerWeek (abt : Nat) : Nat := blocksPerDay abt * 7

/-- `const blocksPerMonth = blocksPerWeek * 4n` (main.ts line 146). -/
def blocksPerMonth (abt : Nat) : Nat := blocksPerWeek abt * 4

/-- `const blocksPerYear = blocksPerMonth * 12n` (main.ts line 147). -/
def blocksPerYear (abt : Nat) : Nat := blocksPerMonth abt * 12

/-- One entry of `lpStaking.read.poolInfo([pid])`: the tuple
`(lpToken, allocPoint, lastRewardBlock, accStargatePerShare)`. -/
structure PoolInfo where
  lpToken : String
  allocPoint : Nat
  lastRewardBlock : Nat
  accStargatePerShare : Nat
deriving DecidableEq

/-- One entry of `lpStaking.read.userInfo([pid, address])`: the tuple
`(amount, rewardDebt)`. -/
structure UserInfo where
  amount : Nat
  rewardDebt : Nat
deriving DecidableEq

/-- `pools.filter(([_, pool, userInfo]) => pool[1] > 0 && userInfo[0] > 0)`
(main.ts lines 181-186): keep pools with a positive allocation point in which
the queried user has a positive stake. -/
def activePools (pools : List (Nat × PoolInfo × UserInfo)) :
    List (Nat × PoolInfo × UserInfo) :=
  pools.filter (fun x => decide (0 < x.2.1.allocPoint) && decide (0 < x.2.2.amount))

/-- `parseFloat(formatUnits(stgPerBlock, Number(STG_DECIMALS)))` (main.ts
lines 215-217): the raw emission rate converted to decimal token units. -/
def stgPerBlockF (stgPerBlock : Nat) : ℚ := (stgPerBlock : ℚ) / 10 ^ STG_DECIMALS

/-- `stgPerBlockF * (Number(pool.allocPoint) / Number(totalAllocPoint))`
(main.ts lines 218-219). -/
def rewardPerBlock (stg alloc total : Nat) : JsNum :=
  jsMul (.fin (stgPerBlockF stg)) (jsDiv (.fin (alloc : ℚ)) (.fin (total : ℚ)))

/-- `rewardPerBlock * Number(blocksPerDay)` (main.ts line 221). -/
def rewardPerDay (stg alloc total abt : Nat) : JsNum :=
  jsMul (rewardPerBlock stg alloc total) (.fin (blocksPerDay abt : ℚ))

/-- `rewardPerBlock * Number(blocksPerWeek)` (main.ts line 222). -/
def rewardPerWeek (stg alloc total abt : Nat) : JsNum :=
  jsMul (rewardPerBlock stg alloc total) (.fin (blocksPerWeek abt : ℚ))

/-- `rewardPerBlock * Number(blocksPerMonth)` (main.ts line 223). -/
def rewardPerMonth (stg alloc total abt : Nat) : JsNum :=
  jsMul (rewardPerBlock stg alloc total) (.fin (blocksPerMonth abt : ℚ))

/-- `rewardPerBlock * Number(blocksPerYear)` (main.ts line 224). -/
def rewardPerYear (stg alloc total abt : Nat) : JsNum :=
  jsMul (rewardPerBlock stg alloc total) (.fin (blocksPerYear abt : ℚ))

/-- `Number(lpSupply / 10n ** decimals)` (main.ts line 226): BigInt floor
division first, conversion to a JavaScript number afterwards. -/
def stakedTokens (lpSupply decimals : Nat) : ℚ := ((lpSupply / 10 ^ decimals : Nat) : ℚ)

/-- `rewardPerWeek * 100 / stakedTokens` (main.ts line 227). -/
def weeklyAPY (stg alloc total abt lpSupply decimals : Nat) : JsNum :=
  jsDiv (jsMul (rewardPerWeek stg alloc total abt) (.fin 100))
    (.fin (stakedTokens lpSupply decimals))

/-- `weeklyAPY / 7.0` (main.ts line 228). -/
def dailyAPY (stg alloc total abt lpSupply decimals : Nat) : JsNum :=
  jsDiv (weeklyAPY stg alloc total abt lpSupply decimals) (.fin 7)

/-- `weeklyAPY * 4.0` (main.ts line 229). -/
def monthlyAPY (stg alloc total abt lpSupply decimals : Nat) : JsNum :=
  jsMul (weeklyAPY stg alloc total abt lpSupply decimals) (.fin 4)

/-- `weeklyAPY * 52.0` (main.ts line 230). -/
def yearlyAPY (stg alloc total abt lpSupply decimals : Nat) : JsNum :=
  jsMul (weeklyAPY stg alloc total abt lpSupply decimals) (.fin 52)

/-- `(Number(pool.userStaked) * 100) / staked` where
`staked = Number(lpSupply)` (main.ts lines 214 and 232): both amounts are in
raw integer units. -/
def userStakedPct (userStaked lpSupply : Nat) : JsNum :=
  jsDiv (jsMul (.fin (userStaked : ℚ)) (.fin 100)) (.fin (lpSupply : ℚ))

/-- `(rewardPerX * userStakedPct) / 100` (main.ts lines 233-236): the
user-share scaling applied to each per-window pool reward. -/
def userReward (poolReward pct : JsNum) : JsNum :=
  jsDiv (jsMul poolReward pct) (.fin 100)

/-- The derived per-pool metrics assembled in the record returned at
main.ts lines 242-265. -/
structure PoolMetrics where
  rewardPerBlock : JsNum
  rewardPerDay : JsNum
  rewardPerWeek : JsNum
  rewardPerMonth : JsNum
  rewardPerYear : JsNum
  stakedTokens : ℚ
  weeklyAPY : JsNum
  dailyAPY : JsNum
  monthlyAPY : JsNum
  yearlyAPY : JsNum
  userStakedPct : JsNum
  userDailyReward : JsNum
  userWeeklyReward : JsNum
  userMonthlyReward : JsNum
  userYearlyReward : JsNum
deriving DecidableEq

/-- The per-pool computation block of main.ts lines 214-236 for one active
pool, parameterised by the global emission rate `stg`, the global
`totalAllocPoint` `total`, the average block time `abt`, and the pool's
`allocPoint`, `lpSupply` (= `lpBalances[pid]`), LP-token `decimals` and the
user's staked amount `userStaked` (all raw integer units). -/
def computePoolMetrics (stg total abt alloc lpSupply decimals userStaked : Nat) :
    PoolMetrics where
  rewardPerBlock := rewardPerBlock stg alloc total
  rewardPerDay := rewardPerDay stg alloc total abt
  rewardPerWeek := rewardPerWeek stg alloc total abt
  rewardPerMonth := rewardPerMonth stg alloc total abt
  rewardPerYear := rewardPerYear stg alloc total abt
  stakedTokens := stakedTokens lpSupply decimals
  weeklyAPY := weeklyAPY stg alloc total abt lpSupply decimals
  dailyAPY := dailyAPY stg alloc total abt lpSupply decimals
  monthlyAPY := monthlyAPY stg alloc total abt lpSupply decimals
  yearlyAPY := yearlyAPY stg alloc total abt lpSupply decimals
  userStakedPct := userStakedPct userStaked lpSupply
  userDailyReward := userReward (rewardPerDay stg alloc total abt) (userStakedPct userStaked lpSupply)
  userWeeklyReward := userReward (rewardPerWeek stg alloc total abt) (userStakedPct userStaked lpSupply)
  userMonthlyReward := userReward (rewardPerMonth stg alloc total abt) (userStakedPct userStaked lpSupply)
  userYearlyReward := userReward (rewardPerYear stg alloc total abt) (userStakedPct userStaked lpSupply)

/-- Modelled from the spec (§4.5 as read by claim C4, for refinement
comparison only — this is NOT the source computation): the user stake
percentage with both amounts first converted to whole-token decimal units by
the same floor conversion that produces APYCalculator's denominator
(`stakedTokens`). -/
def userStakedPct_spec (userStaked lpSupply decimals : Nat) : JsNum :=
  jsDiv (jsMul (.fin (stakedTokens userStaked decimals)) (.fin 100))
    (.fin (stakedTokens lpSupply decimals))

/-- `zeroAddress` from viem (main.ts line 331). -/
def zeroAddress : String := "0x0000000000000000000000000000000000000000"

/-- One entry of `CONTRACT_ADDRESSES_MAP` (main.ts lines 17-21). -/
structure ContractAddresses where
  LP_STAKING : String
  USDC : String
  USDT : String
deriving DecidableEq

/-- The `mainnet` entry of `CONTRACT_ADDRESSES_MAP` (main.ts lines 24-28). -/
def mainnetAddresses : ContractAddresses where
  LP_STAKING := "0xB0D502E938ed5f4df2E681fE6E419ff29631d62b"
  USDC := "0xA0b86991c6218b36c1d19D4a2e9Eb0cE3606eB48"
  USDT := "0xdAC17F958D2ee523a2206206994597C13D831ec7"

/-- The `bsc` entry of `CONTRACT_ADDRESSES_MAP` (main.ts lines 29-33). -/
def bscAddresses : ContractAddresses where
  LP_STAKING := "0x3052A0F6ab15b4AE1df39962d5DdEFacA86DaB47"
  USDC := "0x8AC76a51cc950d9822D68b83fE1Ad97B32Cd580d"
  USDT := "0x55d398326f99059fF775485246999027B3197955"

/-- The `polygon` entry of `CONTRACT_ADDRESSES_MAP` (main.ts lines 34-38). -/
def polygonAddresses : ContractAddresses where
  LP_STAKING := "0x8731d54E9D02c286767d56ac03e8037C07e01e98"
  USDC := "0x2791Bca1f2de4661ED88A30C99A7a9449Aa84174"
  USDT := "0xc2132D05D31c914a87C6611C10748AEb04B58e8F"

/-- `CONTRACT_ADDRESSES_MAP` (main.ts lines 23-39). -/
def CONTRACT_ADDRESSES_MAP : List (String × ContractAddresses) :=
  [("mainnet", mainnetAddresses), ("bsc", bscAddresses), ("polygon", polygonAddresses)]

/-- `const stableCoins = [USDC, USDT]` (main.ts lines 275-278). -/
def stableCoins (addrs : ContractAddresses) : List String :=
  [addrs.USDC, addrs.USDT]

/-- `tokens.filter((token) => !stableCoins.includes(token))` (main.ts lines
279-281): the token addresses actually sent to the batch price-feed query. -/
def filteredTokens (stables tokens : List String) : List String :=
  tokens.filter (fun t => !stables.contains t)

/-- The price map assembled at main.ts lines 282-334 as an association list
(later JavaScript object assignments override earlier ones, so entries
written later come first): the feed response, then `USDC := 1.0`,
`USDT := 1.0`, then the reward-token price keyed under
`stargateTokenAddress`, then the native-asset price keyed under
`zeroAddress`.  Only the `usd` field is modelled. -/
def buildTokenPrices (addrs : ContractAddresses) (stargateTokenAddress : String)
    (feed : List (String × ℚ)) (stgPrice nativePrice : ℚ) : List (String × ℚ) :=
  (zeroAddress, nativePrice) :: (stargateTokenAddress, stgPrice) ::
    (addrs.USDT, 1) :: (addrs.USDC, 1) :: feed

/-- `tokenPrices[a]?.usd`: first-match lookup in the assembled price map. -/
def lookupPrice (prices : List (String × ℚ)) (a : String) : Option ℚ :=
  (prices.find? (fun p => p.1 == a)).map Prod.snd

/-- The data of one active pool consumed by the USD-valuation part of the
report loop (main.ts lines 409-433). -/
structure ReportedPool where
  token : String
  staked : Nat
  decimals : Nat
  pendingStg : Nat
  userDailyReward : JsNum
  userWeeklyReward : JsNum
  userMonthlyReward : JsNum
  userYearlyReward : JsNum
deriving DecidableEq

/-- The USD-denominated fields printed for one pool (main.ts lines 409-433). -/
structure UsdReport where
  lpValue : ℚ
  pendingStgValue : ℚ
  userDailyYield : JsNum
  userWeeklyYield : JsNum
  userMonthlyYield : JsNum
  userYearlyYield : JsNum
deriving DecidableEq

/-- The USD valuation of one pool.  `tokenPrices[pool.token].usd` (main.ts
line 409) throws a TypeError when the token has no entry in the price map;
the uncaught exception is modelled as `Except.error ()`.  The reward-token
lookup (line 410) is handled the same way. -/
def reportPool (prices : List (String × ℚ)) (stargateTokenAddress : String)
    (p : ReportedPool) : Except Unit UsdReport :=
  match lookupPrice prices p.token with
  | none => .error ()
  | some lpTokenPrice =>
    match lookupPrice prices stargateTokenAddress with
    | none => .error ()
    | some stgPrice =>
      .ok {
        lpValue := lpTokenPrice * ((p.staked : ℚ) / 10 ^ p.decimals)
        pendingStgValue := stgPrice * ((p.pendingStg : ℚ) / 10 ^ STG_DECIMALS)
        userDailyYield := jsMul p.userDailyReward (.fin stgPrice)
        userWeeklyYield := jsMul p.userWeeklyReward (.fin stgPrice)
        userMonthlyYield := jsMul p.userMonthlyReward (.fin stgPrice)
        userYearlyYield := jsMul p.userYearlyReward (.fin stgPrice) }

/-- The report loop over the active pools (main.ts lines 346-445): pools are
valued in order and an uncaught TypeError from `reportPool` aborts the whole
run (`Except.error`), producing no further per-pool output. -/
def reportRun (prices : List (String × ℚ)) (stargateTokenAddress : String) :
    List ReportedPool → Except Unit (List UsdReport)
  | [] => .ok []
  | p :: ps =>
    match reportPool prices stargateTokenAddress p with
    | .error e => .error e
    | .ok u =>
      match reportRun prices stargateTokenAddress ps with
      | .error e => .error e
      | .ok rest => .ok (u :: rest)

theorem jsMul_fin_fin (a b : ℚ) : jsMul (.fin a) (.fin b) = .fin (a * b) := rfl

theorem jsDiv_fin_fin (a b : ℚ) (hb : b ≠ 0) : jsDiv (.fin a) (.fin b) = .fin (a / b) := by
  simp [jsDiv, hb]

theorem jsDiv_fin_zero_pos (a : ℚ) (ha : 0 < a) : jsDiv (.fin a) (.fin 0) = .posInf := by
  simp [jsDiv, ha]

theorem jsMul_fin_posInf (a : ℚ) (ha : 0 < a) : jsMul (.fin a) .posInf = .posInf := by
  simp [jsMul, ha]

theorem jsMul_posInf_fin (b : ℚ) (hb : 0 < b) : jsMul .posInf (.fin b) = .posInf := by
  simp [jsMul, hb]

theorem jsDiv_posInf_fin (b : ℚ) (hb : 0 ≤ b) : jsDiv .posInf (.fin b) = .posInf := by
  simp [jsDiv, hb]

/-- C3: `activePools` keeps exactly the pools with a positive allocation
point and a positive user stake, and its output is a subsequence of the
input (stable filter, original pool-ordinal order preserved). -/
theorem poolSelector_filter_spec (pools : List (Nat × PoolInfo × UserInfo)) :
    (∀ x, x ∈ activePools pools ↔ x ∈ pools ∧ 0 < x.2.1.allocPoint ∧ 0 < x.2.2.amount)
  ∧ (activePools pools).Sublist pools := by
  constructor
  · intro x
    simp [activePools, List.mem_filter, and_assoc]
  · exact List.filter_sublist _

/-- C5 (amended): `blocksPerHour` is the floor of `3600 / avgBlockTime` and
the week/month/year cascade holds for every average block time; all five
block counts are positive provided `0 < avgBlockTime ≤ 3600` (for a block
time above one hour `blocksPerHour` is zero, so the unrestricted positivity
stated by the claim fails — see the counterexample); at 12 s the counts are
300, 7200, 50400, 201600 and 2419200. -/
theorem blockTime_cascade (abt : Nat) (h1 : 0 < abt) (h2 : abt ≤ 3600) :
    blocksPerHour abt = 3600 / abt
  ∧ ⌊(3600 : ℚ) / (abt : ℚ)⌋₊ = blocksPerHour abt
  ∧ blocksPerWeek abt = blocksPerDay abt * 7
  ∧ blocksPerMonth abt = blocksPerWeek abt * 4
  ∧ blocksPerYear abt = blocksPerMonth abt * 12
  ∧ 0 < blocksPerHour abt ∧ 0 < blocksPerDay abt ∧ 0 < blocksPerWeek abt
  ∧ 0 < blocksPerMonth abt ∧ 0 < blocksPerYear abt
  ∧ blocksPerHour 12 = 300 ∧ blocksPerDay 12 = 7200 ∧ blocksPerWeek 12 = 50400
  ∧ blocksPerMonth 12 = 201600 ∧ blocksPerYear 12 = 2419200 := by
  have hpos : 0 < blocksPerHour abt := Nat.div_pos h2 h1
  have hfloor : ⌊(3600 : ℚ) / (abt : ℚ)⌋₊ = blocksPerHour abt := by
    have := Nat.floor_div_eq_div (α := ℚ) 3600 abt
    simpa [blocksPerHour] using this
  refine ⟨rfl, hfloor, rfl, rfl, rfl, hpos, ?_, ?_, ?_, ?_,
    by decide, by decide, by decide, by decide, by decide⟩
  · unfold blocksPerDay; omega
  · unfold blocksPerWeek blocksPerDay; omega
  · unfold blocksPerMonth blocksPerWeek blocksPerDay; omega
  · unfold blocksPerYear blocksPerMonth blocksPerWeek blocksPerDay; omega

/-- C5 counterexample: for an average block time of 3601 s the derived block
counts are 0, so the claim that every derived `ChainSnapshot` has positive
block-count fields is false. -/
theorem blockCounts_positive_cex :
    blocksPerHour 3601 = 0 ∧ blocksPerDay 3601 = 0 ∧ blocksPerWeek 3601 = 0
  ∧ blocksPerMonth 3601 = 0 ∧ blocksPerYear 3601 = 0 := by
  decide

/-- Witness for `blockTime_cascade` at the 12-second block time. -/
theorem blockTime_cascade_witness :
    ((0 : Nat) < 12 ∧ (12 : Nat) ≤ 3600) ∧ 0 < blocksPerYear 12 ∧ blocksPerYear 12 = 2419200 := by
  refine ⟨⟨by decide, by decide⟩, ?_, ?_⟩
  · exact (blockTime_cascade 12 (by decide) (by decide)).2.2.2.2.2.2.2.2.2.1
  · exact (blockTime_cascade 12 (by decide) (by decide)).2.2.2.2.2.2.2.2.2.2.2.2.2.2

/-- C1: for an active pool the per-block reward is the decimal-converted
global emission rate times `allocPoint / totalAllocPoint`, each per-window
projection is that per-block reward times the window's block count (pure
multiplication, no compounding), and with allocations 100, 200, 300 out of a
total of 600 the pool rewards are the global rate times 1/6, 2/6 and 3/6. -/
theorem rewardDistributor_allocation_share
    (stg total abt alloc lpSupply decimals userStaked : Nat) (ht : 0 < total) :
    (computePoolMetrics stg total abt alloc lpSupply decimals userStaked).rewardPerBlock
      = .fin (stgPerBlockF stg * ((alloc : ℚ) / (total : ℚ)))
  ∧ (computePoolMetrics stg total abt alloc lpSupply decimals userStaked).rewardPerDay
      = jsMul (rewardPerBlock stg alloc total) (.fin (blocksPerDay abt : ℚ))
  ∧ (computePoolMetrics stg total abt alloc lpSupply decimals userStaked).rewardPerWeek
      = jsMul (rewardPerBlock stg alloc total) (.fin (blocksPerWeek abt : ℚ))
  ∧ (computePoolMetrics stg total abt alloc lpSupply decimals userStaked).rewardPerMonth
      = jsMul (rewardPerBlock stg alloc total) (.fin (blocksPerMonth abt : ℚ))
  ∧ (computePoolMetrics stg total abt alloc lpSupply decimals userStaked).rewardPerYear
      = jsMul (rewardPerBlock stg alloc total) (.fin (blocksPerYear abt : ℚ))
  ∧ rewardPerBlock stg 100 600 = .fin (stgPerBlockF stg * (1 / 6))
  ∧ rewardPerBlock stg 200 600 = .fin (stgPerBlockF stg * (2 / 6))
  ∧ rewardPerBlock stg 300 600 = .fin (stgPerBlockF stg * (3 / 6))
  := by
  have htq : ((total : ℚ)) ≠ 0 := Nat.cast_ne_zero.mpr ht.ne'
  refine ⟨?_, rfl, rfl, rfl, rfl, ?_, ?_, ?_⟩
  · show rewardPerBlock stg alloc total = _
    rw [rewardPerBlock, jsDiv_fin_fin _ _ htq, jsMul_fin_fin]
  · rw [rewardPerBlock, jsDiv_fin_fin _ _ (by norm_num), jsMul_fin_fin]
    norm_num
  · rw [rewardPerBlock, jsDiv_fin_fin _ _ (by norm_num), jsMul_fin_fin]
    norm_num
  · rw [rewardPerBlock, jsDiv_fin_fin _ _ (by norm_num), jsMul_fin_fin]
    norm_num

/-- Witness for `rewardDistributor_allocation_share` with a total of 600
allocation points and a pool holding 100 of them. -/
theorem rewardDistributor_allocation_share_witness :
    (0 : Nat) < 600
  ∧ (computePoolMetrics 4 600 12 100 1 0 1).rewardPerBlock
      = .fin (stgPerBlockF 4 * (((100 : ℕ) : ℚ) / ((600 : ℕ) : ℚ))) :=
  ⟨by decide, (rewardDistributor_allocation_share 4 600 12 100 1 0 1 (by decide)).1⟩

/-- C2: for an active pool with a nonzero staked-token denominator the weekly
APY is `rewardPerWeek * 100 / stakedTokens`, and the three other horizons are
the fixed scalar multiples `weeklyAPY / 7`, `weeklyAPY * 4` and
`weeklyAPY * 52` of that same weekly figure (exactly, in the exact-rational
model of the floating-point computation). -/
theorem apyCalculator_scalar_multiples (stg total abt alloc lpSupply decimals : Nat)
    (ht : 0 < total) (hs : stakedTokens lpSupply decimals ≠ 0) :
    ∃ r w : ℚ,
      rewardPerWeek stg alloc total abt = .fin r
    ∧ weeklyAPY stg alloc total abt lpSupply decimals = .fin w
    ∧ w = r * 100 / stakedTokens lpSupply decimals
    ∧ dailyAPY stg alloc total abt lpSupply decimals = .fin (w / 7)
    ∧ monthlyAPY stg alloc total abt lpSupply decimals = .fin (w * 4)
    ∧ yearlyAPY stg alloc total abt lpSupply decimals = .fin (w * 52) := by
  have htq : ((total : ℚ)) ≠ 0 := Nat.cast_ne_zero.mpr ht.ne'
  have hr : rewardPerWeek stg alloc total abt
      = .fin (stgPerBlockF stg * ((alloc : ℚ) / (total : ℚ)) * (blocksPerWeek abt : ℚ)) := by
    rw [rewardPerWeek, rewardPerBlock, jsDiv_fin_fin _ _ htq, jsMul_fin_fin, jsMul_fin_fin]
  have hw : weeklyAPY stg alloc total abt lpSupply decimals
      = .fin (stgPerBlockF stg * ((alloc : ℚ) / (total : ℚ)) * (blocksPerWeek abt : ℚ) * 100
          / stakedTokens lpSupply decimals) := by
    rw [weeklyAPY, hr, jsMul_fin_fin, jsDiv_fin_fin _ _ hs]
  refine ⟨_, _, hr, hw, rfl, ?_, ?_, ?_⟩
  · rw [dailyAPY, hw, jsDiv_fin_fin _ _ (by norm_num)]
  · rw [monthlyAPY, hw, jsMul_fin_fin]
  · rw [yearlyAPY, hw, jsMul_fin_fin]

/-- Witness for `apyCalculator_scalar_multiples` with one pool holding the
whole allocation and 100 staked tokens. -/
theorem apyCalculator_scalar_multiples_witness :
    ((0 : Nat) < 1 ∧ stakedTokens 100 0 ≠ 0)
  ∧ (∃ r w : ℚ,
      rewardPerWeek (10 ^ 18) 1 1 12 = .fin r
    ∧ weeklyAPY (10 ^ 18) 1 1 12 100 0 = .fin w
    ∧ w = r * 100 / stakedTokens 100 0
    ∧ dailyAPY (10 ^ 18) 1 1 12 100 0 = .fin (w / 7)
    ∧ monthlyAPY (10 ^ 18) 1 1 12 100 0 = .fin (w * 4)
    ∧ yearlyAPY (10 ^ 18) 1 1 12 100 0 = .fin (w * 52)) :=
  ⟨⟨by decide, by decide⟩,
    apyCalculator_scalar_multiples (10 ^ 18) 1 12 1 100 0 (by decide) (by decide)⟩

/-- C10: the staked-token denominator of the APY computation is the integer
floor of `totalStaked / 10 ^ decimals` (BigInt division discards the
fractional tokens before the conversion to floating point), and a pool whose
total stake is positive but below one whole token gets denominator 0. -/
theorem apy_denominator_floor :
    (∀ stg total abt alloc lpSupply decimals userStaked : Nat,
       (computePoolMetrics stg total abt alloc lpSupply decimals userStaked).stakedTokens
         = ((lpSupply / 10 ^ decimals : Nat) : ℚ)
     ∧ ⌊(lpSupply : ℚ) / ((10 ^ decimals : ℕ) : ℚ)⌋₊ = lpSupply / 10 ^ decimals)
  ∧ ∀ lpSupply decimals : Nat, 0 < lpSupply → lpSupply < 10 ^ decimals →
      stakedTokens lpSupply decimals = 0 := by
  constructor
  · intro stg total abt alloc l d u
    exact ⟨rfl, Nat.floor_div_eq_div (α := ℚ) l (10 ^ d)⟩
  · intro l d _ h2
    simp [stakedTokens, Nat.div_eq_of_lt h2]

/-- Witness for `apy_denominator_floor`: 5 raw units of an 1-decimal token
is a positive stake below one whole token, and its denominator is 0. -/
theorem apy_denominator_floor_witness :
    ((0 : Nat) < 5 ∧ (5 : Nat) < 10 ^ 1) ∧ stakedTokens 5 1 = 0 :=
  ⟨⟨by decide, by decide⟩, apy_denominator_floor.2 5 1 (by decide) (by decide)⟩

/-- C4 counterexample: with 15 raw units staked in a pool (of which the user
holds 5) and one decimal, the code computes the user percentage from raw
units, `5 * 100 / 15 = 100/3`, while the percentage computed from the
whole-token decimal units that APYCalculator's denominator uses
(`floor(5/10) = 0`, `floor(15/10) = 1`) would be 0 — the claim that both
amounts are in decimal token units consistent with APYCalculator's
denominator is false. -/
theorem userShare_units_cex :
    (computePoolMetrics (10 ^ 18) 1 12 1 15 1 5).userStakedPct = .fin (100 / 3)
  ∧ userStakedPct_spec 5 15 1 = .fin 0
  ∧ (computePoolMetrics (10 ^ 18) 1 12 1 15 1 5).userStakedPct ≠ userStakedPct_spec 5 15 1 := by
  refine ⟨?_, ?_, ?_⟩ <;>
    norm_num [computePoolMetrics, userStakedPct, userStakedPct_spec, stakedTokens,
      jsMul, jsDiv]

/-- C4 (amended): the user stake percentage is computed from RAW integer
units, `userStakedAmount * 100 / lpSupply` (numerically the exact decimal
ratio, but not the floored whole-token denominator used by APYCalculator),
every per-window user reward is the pool-level reward scaled by
`userStakedPct / 100`, and a pool reward of 1000 at a 25 % share yields a
user reward of 250. -/
theorem userShare_raw_units (stg total abt alloc lpSupply decimals userStaked : Nat)
    (hl : 0 < lpSupply) :
    (computePoolMetrics stg total abt alloc lpSupply decimals userStaked).userStakedPct
      = .fin ((userStaked : ℚ) * 100 / (lpSupply : ℚ))
  ∧ (computePoolMetrics stg total abt alloc lpSupply decimals userStaked).userDailyReward
      = userReward (rewardPerDay stg alloc total abt) (userStakedPct userStaked lpSupply)
  ∧ (computePoolMetrics stg total abt alloc lpSupply decimals userStaked).userWeeklyReward
      = userReward (rewardPerWeek stg alloc total abt) (userStakedPct userStaked lpSupply)
  ∧ (computePoolMetrics stg total abt alloc lpSupply decimals userStaked).userMonthlyReward
      = userReward (rewardPerMonth stg alloc total abt) (userStakedPct userStaked lpSupply)
  ∧ (computePoolMetrics stg total abt alloc lpSupply decimals userStaked).userYearlyReward
      = userReward (rewardPerYear stg alloc total abt) (userStakedPct userStaked lpSupply)
  ∧ userReward (.fin 1000) (.fin 25) = .fin 250 := by
  have hlq : ((lpSupply : ℚ)) ≠ 0 := Nat.cast_ne_zero.mpr hl.ne'
  refine ⟨?_, rfl, rfl, rfl, rfl, ?_⟩
  · show userStakedPct userStaked lpSupply = _
    rw [userStakedPct, jsMul_fin_fin, jsDiv_fin_fin _ _ hlq]
  · rw [userReward, jsMul_fin_fin, jsDiv_fin_fin _ _ (by norm_num)]
    norm_num

/-- Witness for `userShare_raw_units`: 100 of 400 raw units staked. -/
theorem userShare_raw_units_witness :
    (0 : Nat) < 400
  ∧ (computePoolMetrics (10 ^ 18) 1 12 1 400 0 100).userStakedPct
      = .fin (((100 : ℕ) : ℚ) * 100 / ((400 : ℕ) : ℚ)) :=
  ⟨by decide, (userShare_raw_units (10 ^ 18) 1 12 1 400 0 100 (by decide)).1⟩

/-- C8 counterexample: a pool holding 5 raw units of a 1-decimal token has
`stakedTokens = 0`, and the APY computation does not report N/A — it divides
by zero and produces `Infinity` for all four horizons (the run continues, but
a non-finite APY is produced, contrary to the claim). -/
theorem undefinedYield_cex :
    stakedTokens 5 1 = 0
  ∧ (computePoolMetrics (10 ^ 18) 1 12 1 5 1 5).weeklyAPY = .posInf
  ∧ (computePoolMetrics (10 ^ 18) 1 12 1 5 1 5).dailyAPY = .posInf
  ∧ (computePoolMetrics (10 ^ 18) 1 12 1 5 1 5).monthlyAPY = .posInf
  ∧ (computePoolMetrics (10 ^ 18) 1 12 1 5 1 5).yearlyAPY = .posInf := by
  refine ⟨?_, ?_, ?_, ?_, ?_⟩ <;>
    norm_num [computePoolMetrics, weeklyAPY, dailyAPY, monthlyAPY, yearlyAPY,
      rewardPerWeek, rewardPerBlock, stgPerBlockF, STG_DECIMALS, stakedTokens,
      blocksPerWeek, blocksPerDay, blocksPerHour, jsMul, jsDiv]

/-- C8 (amended): when the staked-token denominator is 0 (and the weekly
reward is positive) no `UndefinedYield` handling exists: the division does
not raise, but instead of an N/A field all four APY figures are the
non-finite value `Infinity`. -/
theorem zeroStake_apy_not_handled (stg total abt alloc lpSupply decimals : Nat)
    (hs : 0 < stg) (ht : 0 < total) (ha : 0 < alloc)
    (hb : 0 < blocksPerWeek abt) (hz : lpSupply / 10 ^ decimals = 0) :
    weeklyAPY stg alloc total abt lpSupply decimals = .posInf
  ∧ dailyAPY stg alloc total abt lpSupply decimals = .posInf
  ∧ monthlyAPY stg alloc total abt lpSupply decimals = .posInf
  ∧ yearlyAPY stg alloc total abt lpSupply decimals = .posInf := by
  have htq : ((total : ℚ)) ≠ 0 := Nat.cast_ne_zero.mpr ht.ne'
  have hq : (0 : ℚ) < stgPerBlockF stg * ((alloc : ℚ) / (total : ℚ))
      * (blocksPerWeek abt : ℚ) * 100 := by
    have h1 : (0 : ℚ) < stgPerBlockF stg :=
      div_pos (by exact_mod_cast hs) (by norm_num)
    have h2 : (0 : ℚ) < (alloc : ℚ) / (total : ℚ) :=
      div_pos (by exact_mod_cast ha) (lt_of_le_of_ne (Nat.cast_nonneg total) (Ne.symm htq))
    have h3 : (0 : ℚ) < (blocksPerWeek abt : ℚ) := by exact_mod_cast hb
    have := mul_pos (mul_pos (mul_pos h1 h2) h3) (show (0 : ℚ) < 100 by norm_num)
    exact this
  have hzq : stakedTokens lpSupply decimals = 0 := by
    simp [stakedTokens, hz]
  have hw : weeklyAPY stg alloc total abt lpSupply decimals = .posInf := by
    rw [weeklyAPY, rewardPerWeek, rewardPerBlock, jsDiv_fin_fin _ _ htq,
      jsMul_fin_fin, jsMul_fin_fin, jsMul_fin_fin, hzq, jsDiv_fin_zero_pos _ hq]
  refine ⟨hw, ?_, ?_, ?_⟩
  · rw [dailyAPY, hw, jsDiv_posInf_fin _ (by norm_num)]
  · rw [monthlyAPY, hw, jsMul_posInf_fin _ (by norm_num)]
  · rw [yearlyAPY, hw, jsMul_posInf_fin _ (by norm_num)]

/-- Witness for `zeroStake_apy_not_handled` at 5 raw units of a 1-decimal
token. -/
theorem zeroStake_apy_not_handled_witness :
    ((0 : Nat) < 10 ^ 18 ∧ (0 : Nat) < 1 ∧ (0 : Nat) < 1
      ∧ 0 < blocksPerWeek 12 ∧ 5 / 10 ^ 1 = 0)
  ∧ weeklyAPY (10 ^ 18) 1 1 12 5 1 = .posInf :=
  ⟨⟨by decide, by decide, by decide, by decide, by decide⟩,
    (zeroStake_apy_not_handled (10 ^ 18) 1 12 1 5 1 (by decide) (by decide)
      (by decide) (by decide) (by decide)).1⟩

/-- C9 counterexample: with `totalAllocPoint = 0` and an active pool holding
100 allocation points, no `AllocationAccountingError` is raised and the run
does not abort — the pool reports `Infinity` as its per-block and yearly
reward, which is not the zero reward the claim requires. -/
theorem allocationGuard_cex :
    (computePoolMetrics (10 ^ 18) 0 12 100 1000 0 10).rewardPerBlock = .posInf
  ∧ (computePoolMetrics (10 ^ 18) 0 12 100 1000 0 10).rewardPerYear = .posInf
  ∧ (computePoolMetrics (10 ^ 18) 0 12 100 1000 0 10).rewardPerBlock ≠ .fin 0 := by
  refine ⟨?_, ?_, ?_⟩ <;>
    norm_num [computePoolMetrics, rewardPerBlock, rewardPerYear, stgPerBlockF,
      STG_DECIMALS, blocksPerYear, blocksPerMonth, blocksPerWeek, blocksPerDay,
      blocksPerHour, jsMul, jsDiv]
  simp

/-- C9 (amended): there is no guard on `totalAllocPoint = 0`: for an active
pool (positive allocation points, positive emission rate) the allocation
ratio divides by zero, the computation continues, and the pool reports the
non-finite, nonzero per-block reward `Infinity`. -/
theorem zeroTotalAlloc_no_guard (stg abt alloc lpSupply decimals userStaked : Nat)
    (hs : 0 < stg) (ha : 0 < alloc) :
    (computePoolMetrics stg 0 abt alloc lpSupply decimals userStaked).rewardPerBlock = .posInf
  ∧ ∀ q : ℚ,
      (computePoolMetrics stg 0 abt alloc lpSupply decimals userStaked).rewardPerBlock
        ≠ .fin q := by
  have haq : (0 : ℚ) < (alloc : ℚ) := by exact_mod_cast ha
  have hsq : (0 : ℚ) < stgPerBlockF stg := div_pos (by exact_mod_cast hs) (by norm_num)
  have h1 : rewardPerBlock stg alloc 0 = .posInf := by
    rw [rewardPerBlock, Nat.cast_zero, jsDiv_fin_zero_pos _ haq, jsMul_fin_posInf _ hsq]
  refine ⟨h1, ?_⟩
  intro q
  show rewardPerBlock stg alloc 0 ≠ _
  rw [h1]
  simp

/-- Witness for `zeroTotalAlloc_no_guard` at 100 allocation points. -/
theorem zeroTotalAlloc_no_guard_witness :
    ((0 : Nat) < 10 ^ 18 ∧ (0 : Nat) < 100)
  ∧ (computePoolMetrics (10 ^ 18) 0 12 100 1000 0 10).rewardPerBlock = .posInf :=
  ⟨⟨by decide, by decide⟩,
    (zeroTotalAlloc_no_guard (10 ^ 18) 12 100 1000 0 10 (by decide) (by decide)).1⟩

theorem lookupPrice_cons_self (a : String) (v : ℚ) (l : List (String × ℚ)) :
    lookupPrice ((a, v) :: l) a = some v := by
  simp [lookupPrice, List.find?]

theorem lookupPrice_cons_ne (x : String × ℚ) (l : List (String × ℚ)) (a : String)
    (h : x.1 ≠ a) : lookupPrice (x :: l) a = lookupPrice l a := by
  have hb : (x.1 == a) = false := beq_eq_false_iff_ne.mpr h
  simp [lookupPrice, List.find?, hb]

/-- C6: in the assembled price map both configured stablecoins are priced at
exactly 1.0 USD, for every price-feed response (including one that omits them
entirely), and neither stablecoin address is part of the filtered token list
sent to the batch price-feed query. -/
theorem stablecoin_override (addrs : ContractAddresses) (stargateTokenAddress : String)
    (feed : List (String × ℚ)) (stgPrice nativePrice : ℚ) (tokens : List String)
    (h1 : stargateTokenAddress ≠ addrs.USDC) (h2 : stargateTokenAddress ≠ addrs.USDT)
    (h3 : addrs.USDC ≠ zeroAddress) (h4 : addrs.USDT ≠ zeroAddress) :
    lookupPrice (buildTokenPrices addrs stargateTokenAddress feed stgPrice nativePrice)
      addrs.USDC = some 1
  ∧ lookupPrice (buildTokenPrices addrs stargateTokenAddress feed stgPrice nativePrice)
      addrs.USDT = some 1
  ∧ addrs.USDC ∉ filteredTokens (stableCoins addrs) tokens
  ∧ addrs.USDT ∉ filteredTokens (stableCoins addrs) tokens := by
  refine ⟨?_, ?_, ?_, ?_⟩
  · rw [buildTokenPrices, lookupPrice_cons_ne _ _ _ (Ne.symm h3),
      lookupPrice_cons_ne _ _ _ h1]
    by_cases h : addrs.USDT = addrs.USDC
    · rw [show ((addrs.USDT, (1 : ℚ))) = ((addrs.USDC, (1 : ℚ))) by rw [h]]
      exact lookupPrice_cons_self _ _ _
    · rw [lookupPrice_cons_ne _ _ _ h]
      exact lookupPrice_cons_self _ _ _
  · rw [buildTokenPrices, lookupPrice_cons_ne _ _ _ (Ne.symm h4),
      lookupPrice_cons_ne _ _ _ h2]
    exact lookupPrice_cons_self _ _ _
  · intro hmem
    rw [filteredTokens, List.mem_filter] at hmem
    have hc : (stableCoins addrs).contains addrs.USDC = true := by
      simp [stableCoins]
    rw [hc] at hmem
    simp at hmem
  · intro hmem
    rw [filteredTokens, List.mem_filter] at hmem
    have hc : (stableCoins addrs).contains addrs.USDT = true := by
      simp [stableCoins]
    rw [hc] at hmem
    simp at hmem

/-- Witness for `stablecoin_override` on mainnet with an empty feed
response. -/
theorem stablecoin_override_witness :
    ("0xAf5191B0De278C7286d6C7CC6ab6BB8A73bA2Cd6" ≠ mainnetAddresses.USDC
      ∧ "0xAf5191B0De278C7286d6C7CC6ab6BB8A73bA2Cd6" ≠ mainnetAddresses.USDT
      ∧ mainnetAddresses.USDC ≠ zeroAddress ∧ mainnetAddresses.USDT ≠ zeroAddress)
  ∧ lookupPrice
      (buildTokenPrices mainnetAddresses "0xAf5191B0De278C7286d6C7CC6ab6BB8A73bA2Cd6"
        [] (1 / 2) 2) mainnetAddresses.USDC = some 1 :=
  ⟨⟨by decide, by decide, by decide, by decide⟩,
    (stablecoin_override mainnetAddresses "0xAf5191B0De278C7286d6C7CC6ab6BB8A73bA2Cd6"
      [] (1 / 2) 2 [] (by decide) (by decide) (by decide) (by decide)).1⟩

/-- C7 (amended): when some active pool's underlying token has no entry in
the price map the report loop is NOT recovered locally: the price lookup
fails (an uncaught TypeError in the source) and the whole run aborts.  The
token-denominated metrics are unaffected because they are produced by the
earlier `computePoolMetrics` stage, which takes no price input. -/
theorem priceUnavailable_aborts (prices : List (String × ℚ)) (stargateTokenAddress : String)
    (ps : List ReportedPool) (h : ∃ p ∈ ps, lookupPrice prices p.token = none) :
    reportRun prices stargateTokenAddress ps = .error () := by
  induction ps with
  | nil => simp at h
  | cons q qs ih =>
    obtain ⟨p, hp, hnone⟩ := h
    rcases List.mem_cons.mp hp with heq | hmem
    · subst heq
      simp [reportRun, reportPool, hnone]
    · have herr := ih ⟨p, hmem, hnone⟩
      rw [reportRun, herr]
      cases hq : reportPool prices stargateTokenAddress q <;> simp

/-- C7 counterexample: a single active pool whose underlying token
`0xtokenA` is absent from the assembled price map (mainnet stablecoins,
reward token and native asset are present).  The run aborts with the
uncaught lookup failure instead of continuing with that pool's USD fields
reported as unavailable. -/
theorem priceUnavailable_aborts_cex :
    reportRun
      (buildTokenPrices mainnetAddresses "0xAf5191B0De278C7286d6C7CC6ab6BB8A73bA2Cd6"
        [] 2 3)
      "0xAf5191B0De278C7286d6C7CC6ab6BB8A73bA2Cd6"
      [ReportedPool.mk "0xtokenA" 100 0 0 (.fin 1) (.fin 7) (.fin 28) (.fin 364)]
      = .error () := by
  simp [reportRun, reportPool, lookupPrice, buildTokenPrices, List.find?,
    mainnetAddresses, zeroAddress]

/-- Witness for `priceUnavailable_aborts` on the same single-pool input. -/
theorem priceUnavailable_aborts_witness :
    (∃ p ∈ [ReportedPool.mk "0xtokenA" 100 0 0 (.fin 1) (.fin 7) (.fin 28) (.fin 364)],
       lookupPrice
         (buildTokenPrices mainnetAddresses "0xAf5191B0De278C7286d6C7CC6ab6BB8A73bA2Cd6"
           [] (5 / 2) 3) p.token = none)
  ∧ reportRun
      (buildTokenPrices mainnetAddresses "0xAf5191B0De278C7286d6C7CC6ab6BB8A73bA2Cd6"
        [] (5 / 2) 3)
      "0xAf5191B0De278C7286d6C7CC6ab6BB8A73bA2Cd6"
      [ReportedPool.mk "0xtokenA" 100 0 0 (.fin 1) (.fin 7) (.fin 28) (.fin 364)]
      = .error () := by
  have hnone : lookupPrice
      (buildTokenPrices mainnetAddresses "0xAf5191B0De278C7286d6C7CC6ab6BB8A73bA2Cd6"
        [] (5 / 2) 3) "0xtokenA" = none := by
    simp [lookupPrice, buildTokenPrices, List.find?, mainnetAddresses, zeroAddress]
  refine ⟨⟨_, List.mem_singleton.mpr rfl, hnone⟩, ?_⟩
  exact priceUnavailable_aborts _ _ _ ⟨_, List.mem_singleton.mpr rfl, hnone⟩
